import Mathlib

/-!
Shallow embedding of the thread-safe nuclei SDK facade (`lib/multi.go`).

The Go code drives four external collaborators (workflow-loader constructor,
template/workflow store, core scan engine, input provider).  Mutation is
modelled by explicit state passing; calls to external collaborators are
recorded as an ordered event trace, and their results are supplied by a
`ScanEnv` value so that one invocation sees a deterministic environment.
Fresh heap allocations (`core.New`) are identified by a counter threaded
through the functions.
-/

/-- Engine mode tag (`e.mode` in the SDK); the facade always uses `threadSafe`. -/
inductive EngineMode
  | singleShot
  | threadSafe
deriving DecidableEq

/-- The slice of `types.Options` relevant to the facade: the two rate-limit
quotas consulted by `createEphemeralObjects`, plus representative mutable
configuration fields that option functions may set. -/
structure Options where
  rateLimitMinute : Int
  rateLimit : Int
  templates : List String
  bulkSize : Int
deriving DecidableEq

/-- Time window of a rate limiter (`time.Minute` / `time.Second`). -/
inductive Window
  | second
  | minute
deriving DecidableEq

/-- A rate-limiter value held in executor options.  `ofBase h` is the shared
engine's long-lived limiter handle (`base.rateLimiter`); the `fresh…`
constructors are instances newly allocated by `ratelimit.New` /
`ratelimit.NewUnlimited` during the current invocation. -/
inductive RLimiter
  | ofBase (handle : Nat)
  | freshLimited (quota : Nat) (w : Window)
  | freshUnlimited
deriving DecidableEq

/-- Whether a limiter value is the shared engine's limiter handle. -/
def RLimiter.isFromBase : RLimiter → Bool
  | .ofBase _ => true
  | .freshLimited _ _ => false
  | .freshUnlimited => false

/-- The `NucleiEngine` struct fields read by `lib/multi.go`.  Long-lived
collaborator handles (writer, progress, catalog, issues client, interactsh
client, host-error cache, rate limiter) are opaque handles. -/
structure NucleiEngine where
  opts : Options
  mode : EngineMode
  customWriter : Nat
  customProgress : Nat
  catalog : Nat
  rc : Nat
  interactshClient : Nat
  hostErrCache : Nat
  rateLimiter : Nat
  resultCallbacks : List Nat
deriving DecidableEq

/-- Errors surfaced by the facade.  `ErrNoTemplatesAvailable` and
`ErrNoTargetsAvailable` are the SDK sentinel errors; the two loader
constructors wrap their collaborator's message (`errorutil.New`); option
functions and `init` may fail with arbitrary errors. -/
inductive NucleiError
  | ErrNoTemplatesAvailable
  | ErrNoTargetsAvailable
  | workflowLoaderError (msg : String)
  | loaderClientError (msg : String)
  | optionError (msg : String)
  | initError (msg : String)
deriving DecidableEq

/-- Go `NucleiSDKOptions`: a configuration function mutating the (tmp) engine,
or failing. -/
abbrev NucleiSDKOptions := NucleiEngine → Except NucleiError NucleiEngine

/-- Go `protocols.ExecutorOptions`, restricted to the fields `lib/multi.go`
assigns.  `colorizer` models `aurora.NewAurora(true)`; `resumeCfg` models the
fresh `types.NewResumeCfg()` placeholder. -/
structure ExecutorOptions where
  output : Nat
  options : Options
  progress : Nat
  catalog : Nat
  issuesClient : Nat
  rateLimiter : RLimiter
  interactsh : Nat
  hostErrorsCache : Nat
  colorizer : Bool
  resumeCfg : Nat
  workflowLoader : Option Nat
deriving DecidableEq

/-- A `core.Engine` instance: a fresh allocation identified by `id`, holding
the options it was built from and the executor options installed by
`SetExecuterOptions`. -/
structure CoreEngine where
  id : Nat
  opts : Options
  execOpts : Option ExecutorOptions
deriving DecidableEq

/-- Models `core.New(opts)`: a fresh engine instance with allocation id `id`. -/
def coreNew (id : Nat) (opts : Options) : CoreEngine :=
  { id := id, opts := opts, execOpts := none }

/-- Models `engine.SetExecuterOptions(eo)`. -/
def CoreEngine.setExecuterOptions (e : CoreEngine) (eo : ExecutorOptions) : CoreEngine :=
  { e with execOpts := some eo }

/-- The Go `unsafeOptions` struct: the per-invocation ephemeral objects
(executor options plus a fresh core engine). -/
structure EphemeralObjects where
  executerOpts : ExecutorOptions
  engine : CoreEngine
deriving DecidableEq

/-- Embeds `createEphemeralObjects(base, opts)` (`lib/multi.go` lines 30–54), with an
allocation counter for the `core.New` call.  Returns the Go pair
`(*unsafeOptions, error)` together with the next counter. -/
def createEphemeralObjects (base : NucleiEngine) (opts : Options) (ctr : Nat) :
    (EphemeralObjects × Option NucleiError) × Nat :=
  let eo : ExecutorOptions :=
    { output := base.customWriter
      options := opts
      progress := base.customProgress
      catalog := base.catalog
      issuesClient := base.rc
      rateLimiter := .ofBase base.rateLimiter
      interactsh := base.interactshClient
      hostErrorsCache := base.hostErrCache
      colorizer := true
      resumeCfg := 0
      workflowLoader := none }
  let eo :=
    if opts.rateLimitMinute > 0 then
      { eo with rateLimiter := .freshLimited opts.rateLimitMinute.toNat .minute }
    else if opts.rateLimit > 0 then
      { eo with rateLimiter := .freshLimited opts.rateLimit.toNat .second }
    else
      { eo with rateLimiter := .freshUnlimited }
  let eng := (coreNew ctr opts).setExecuterOptions eo
  ((⟨eo, eng⟩, none), ctr + 1)

/-- The rate-limiter selection policy exactly as the spec words it (§4.2):
per-minute quota first, then per-second quota, else unlimited.  Used to state
that the code's selection refines the spec's policy. -/
def specRateLimiterPolicy (rateLimitMinute rateLimit : Int) : RLimiter :=
  if rateLimitMinute > 0 then .freshLimited rateLimitMinute.toNat .minute
  else if rateLimit > 0 then .freshLimited rateLimit.toNat .second
  else .freshUnlimited

/-- Modelled from the spec: `inputs.SimpleInputProvider` (package
`pkg/core/inputs`) is outside the embedded sources.  Spec §4.4: the provider
accumulates target strings into a finite in-memory collection scoped to one
invocation and exposes a count; it does not deduplicate beyond the caller's
exact-string semantics (duplicates are preserved). -/
structure SimpleInputProvider where
  inputs : List String
deriving DecidableEq

/-- Models `inputProvider.Set(target)`: appends the target string. -/
def SimpleInputProvider.set (p : SimpleInputProvider) (v : String) : SimpleInputProvider :=
  { inputs := p.inputs ++ [v] }

/-- Models `inputProvider.Count()`. -/
def SimpleInputProvider.count (p : SimpleInputProvider) : Nat :=
  p.inputs.length

/-- The target-loading loop of `ExecuteNucleiWithOpts` (lines 124–131):
start from an empty provider and `Set` each target in order. -/
def loadTargets (targets : List String) : SimpleInputProvider :=
  targets.foldl SimpleInputProvider.set ⟨[]⟩

deriving instance DecidableEq for Except

/-- Per-invocation behaviour of the external collaborators: the result of
`parsers.NewLoader`, the result of `loader.New`, the template and workflow
sets the store resolves (`store.Templates()` / `store.Workflows()`), and the
error value returned by `engine.ExecuteScanWithOpts`. -/
structure ScanEnv where
  newLoaderResult : Except String Nat
  loaderNewResult : Except String Nat
  templates : List String
  workflows : List String
  scanErr : Option String
deriving DecidableEq

/-- One call to an external collaborator, in program order. -/
inductive Event
  | newWorkflowLoader
  | loaderNew (opts : Options)
  | storeLoad
  | coreNewEngine (id : Nat) (opts : Options)
  | executeScanWithOpts (id : Nat) (templates : List String) (dedupe : Bool) (res : Option String)
  | waitWorkPool (id : Nat)
deriving DecidableEq

/-- The thread-safe facade: wraps the shared `NucleiEngine`. -/
structure ThreadSafeNucleiEngine where
  eng : NucleiEngine
deriving DecidableEq

/-- A `NucleiEngine` literal with only `opts` and `mode` set and every other
field at its zero value, as in `&NucleiEngine{opts: ..., mode: ...}`. -/
def newEngineWith (opts : Options) (mode : EngineMode) : NucleiEngine :=
  { opts := opts, mode := mode, customWriter := 0, customProgress := 0,
    catalog := 0, rc := 0, interactshClient := 0, hostErrCache := 0,
    rateLimiter := 0, resultCallbacks := [] }

/-- The option-application loop: apply each configuration function in order,
stopping at the first error (`for _, option := range opts { ... }`). -/
def applyOptions : List NucleiSDKOptions → NucleiEngine → Except NucleiError NucleiEngine
  | [], e => .ok e
  | f :: fs, e =>
    match f e with
    | .error err => .error err
    | .ok e2 => applyOptions fs e2

/-- Modelled from the spec: the default configuration
(`types.DefaultOptions()` is outside the embedded sources); the spec fixes no
concrete values, and nothing here depends on them. -/
def defaultOptions : Options :=
  { rateLimitMinute := 0, rateLimit := 0, templates := [], bulkSize := 0 }

/-- Embeds `NewThreadSafeNucleiEngine(opts...)` (lines 65–80).  `initFn` abstracts
the engine's `init()` method, which lives outside the embedded sources. -/
def NewThreadSafeNucleiEngine (initFn : NucleiEngine → Except NucleiError NucleiEngine)
    (opts : List NucleiSDKOptions) : Except NucleiError ThreadSafeNucleiEngine :=
  let e := newEngineWith defaultOptions .threadSafe
  match applyOptions opts e with
  | .error err => .error err
  | .ok e2 =>
    match initFn e2 with
    | .error err => .error err
    | .ok e3 => .ok ⟨e3⟩

/-- The per-invocation options value produced by cloning the base options and
applying the invocation's option functions (`none` when some function
failed). -/
def invocationOptions (baseOpts : Options) (opts : List NucleiSDKOptions) : Option Options :=
  match applyOptions opts (newEngineWith baseOpts .threadSafe) with
  | .ok e => some e.opts
  | .error _ => none

/-- Observable outcome of one `ExecuteNucleiWithOpts` call: the returned
error (`none` = nil), the collaborator-call trace, the shared engine state
when the call returns, the per-invocation options value it computed, and the
allocation counter after the call. -/
structure ExecResult where
  ret : Option NucleiError
  events : List Event
  sharedAfter : NucleiEngine
  invocationOpts : Option Options
  ctrAfter : Nat
deriving DecidableEq

/-- Embeds `ExecuteNucleiWithOpts(targets, opts...)` (lines 97–147).  `env` supplies
the external collaborators' per-invocation behaviour and `ctr` the next
fresh allocation id. -/
def ThreadSafeNucleiEngine.ExecuteNucleiWithOpts (e : ThreadSafeNucleiEngine)
    (env : ScanEnv) (ctr : Nat) (targets : List String)
    (opts : List NucleiSDKOptions) : ExecResult :=
  let baseOpts := e.eng.opts
  match applyOptions opts (newEngineWith baseOpts .threadSafe) with
  | .error err =>
      { ret := some err, events := [], sharedAfter := e.eng,
        invocationOpts := none, ctrAfter := ctr }
  | .ok tmpEngine =>
    match createEphemeralObjects e.eng tmpEngine.opts ctr with
    | ((_, some err), ctr1) =>
        { ret := some err, events := [], sharedAfter := e.eng,
          invocationOpts := some tmpEngine.opts, ctrAfter := ctr1 }
    | ((eph, none), ctr1) =>
      match env.newLoaderResult with
      | .error msg =>
          { ret := some (.workflowLoaderError msg),
            events := [.newWorkflowLoader], sharedAfter := e.eng,
            invocationOpts := some tmpEngine.opts, ctrAfter := ctr1 }
      | .ok wl =>
        let executerOpts := { eph.executerOpts with workflowLoader := some wl }
        match env.loaderNewResult with
        | .error msg =>
            { ret := some (.loaderClientError msg),
              events := [.newWorkflowLoader, .loaderNew tmpEngine.opts],
              sharedAfter := e.eng,
              invocationOpts := some tmpEngine.opts, ctrAfter := ctr1 }
        | .ok _ =>
          let setup := [Event.newWorkflowLoader, .loaderNew tmpEngine.opts, .storeLoad]
          let inputProvider := loadTargets targets
          if env.templates.length = 0 ∧ env.workflows.length = 0 then
            { ret := some .ErrNoTemplatesAvailable, events := setup,
              sharedAfter := e.eng,
              invocationOpts := some tmpEngine.opts, ctrAfter := ctr1 }
          else if inputProvider.count = 0 then
            { ret := some .ErrNoTargetsAvailable, events := setup,
              sharedAfter := e.eng,
              invocationOpts := some tmpEngine.opts, ctrAfter := ctr1 }
          else
            let engine := (coreNew ctr1 tmpEngine.opts).setExecuterOptions executerOpts
            { ret := none,
              events := setup ++
                [.coreNewEngine engine.id tmpEngine.opts,
                 .executeScanWithOpts engine.id env.templates false env.scanErr,
                 .waitWorkPool engine.id],
              sharedAfter := e.eng,
              invocationOpts := some tmpEngine.opts, ctrAfter := ctr1 + 1 }

/-- The templates and dedupe flag handed to the first
`ExecuteScanWithOpts` call of a trace, if any. -/
def scannedCall (r : ExecResult) : Option (List String × Bool) :=
  r.events.findSome? fun ev =>
    match ev with
    | .executeScanWithOpts _ t d _ => some (t, d)
    | _ => none


/-- The three collaborator calls every invocation makes before validation:
workflow-loader construction, loader-client construction, store load. -/
def setupEvents (o : Options) : List Event :=
  [.newWorkflowLoader, .loaderNew o, .storeLoad]

/-- Folding `Set` over a target list adds exactly one input per target. -/
theorem foldl_set_count (ts : List String) :
    ∀ p : SimpleInputProvider,
      (ts.foldl SimpleInputProvider.set p).count = p.count + ts.length := by
  induction ts with
  | nil => intro p; simp
  | cons t ts ih =>
      intro p
      rw [List.foldl_cons, ih (p.set t)]
      simp [SimpleInputProvider.set, SimpleInputProvider.count]
      omega

/-- The provider built by the target-loading loop counts every target,
duplicates included. -/
theorem count_loadTargets (targets : List String) :
    (loadTargets targets).count = targets.length := by
  simpa [loadTargets, SimpleInputProvider.count] using
    foldl_set_count targets ⟨[]⟩

/-- Reduction of `ExecuteNucleiWithOpts` once option application and both
loader constructions have succeeded: the call reaches the two validation
checks and, past them, the scan and the wait. -/
theorem execute_validation (e : ThreadSafeNucleiEngine) (env : ScanEnv)
    (ctr : Nat) (targets : List String) (opts : List NucleiSDKOptions)
    (te : NucleiEngine) (wl st : Nat)
    (h1 : applyOptions opts (newEngineWith e.eng.opts .threadSafe) = .ok te)
    (h2 : env.newLoaderResult = .ok wl)
    (h3 : env.loaderNewResult = .ok st) :
    e.ExecuteNucleiWithOpts env ctr targets opts =
      if env.templates.length = 0 ∧ env.workflows.length = 0 then
        { ret := some .ErrNoTemplatesAvailable, events := setupEvents te.opts,
          sharedAfter := e.eng, invocationOpts := some te.opts,
          ctrAfter := ctr + 1 }
      else if (loadTargets targets).count = 0 then
        { ret := some .ErrNoTargetsAvailable, events := setupEvents te.opts,
          sharedAfter := e.eng, invocationOpts := some te.opts,
          ctrAfter := ctr + 1 }
      else
        { ret := none,
          events := setupEvents te.opts ++
            [.coreNewEngine (ctr + 1) te.opts,
             .executeScanWithOpts (ctr + 1) env.templates false env.scanErr,
             .waitWorkPool (ctr + 1)],
          sharedAfter := e.eng, invocationOpts := some te.opts,
          ctrAfter := ctr + 2 } := by
  unfold ThreadSafeNucleiEngine.ExecuteNucleiWithOpts
  simp only [h1, createEphemeralObjects, h2, h3, coreNew,
    CoreEngine.setExecuterOptions, setupEvents]

/-- Whatever the invocation does, the shared engine state at return equals
the shared engine state at entry. -/
theorem execute_sharedAfter (e : ThreadSafeNucleiEngine) (env : ScanEnv)
    (ctr : Nat) (targets : List String) (opts : List NucleiSDKOptions) :
    (e.ExecuteNucleiWithOpts env ctr targets opts).sharedAfter = e.eng := by
  unfold ThreadSafeNucleiEngine.ExecuteNucleiWithOpts
  cases h1 : applyOptions opts (newEngineWith e.eng.opts .threadSafe) with
  | error err => simp [h1]
  | ok te =>
    simp only [h1, createEphemeralObjects]
    cases h2 : env.newLoaderResult with
    | error msg => simp [h2]
    | ok wl =>
      simp only [h2]
      cases h3 : env.loaderNewResult with
      | error msg => simp [h3]
      | ok st =>
        simp only [h3]
        split
        · rfl
        · split <;> rfl

/-- The per-invocation options value an invocation observes is a function of
the shared base options and its own option functions alone. -/
theorem execute_invocationOpts (e : ThreadSafeNucleiEngine) (env : ScanEnv)
    (ctr : Nat) (targets : List String) (opts : List NucleiSDKOptions) :
    (e.ExecuteNucleiWithOpts env ctr targets opts).invocationOpts
      = invocationOptions e.eng.opts opts := by
  unfold ThreadSafeNucleiEngine.ExecuteNucleiWithOpts invocationOptions
  cases h1 : applyOptions opts (newEngineWith e.eng.opts .threadSafe) with
  | error err => simp [h1]
  | ok te =>
    simp only [h1, createEphemeralObjects]
    cases h2 : env.newLoaderResult with
    | error msg => simp [h2]
    | ok wl =>
      simp only [h2]
      cases h3 : env.loaderNewResult with
      | error msg => simp [h3]
      | ok st =>
        simp only [h3]
        split
        · rfl
        · split <;> rfl

/-- A concrete shared engine used to instantiate theorems with hypotheses. -/
def sampleBaseEngine : NucleiEngine :=
  { opts := defaultOptions, mode := .threadSafe, customWriter := 1,
    customProgress := 2, catalog := 3, rc := 4, interactshClient := 5,
    hostErrCache := 6, rateLimiter := 7, resultCallbacks := [] }

/-- A concrete facade wrapping `sampleBaseEngine`. -/
def sampleFacade : ThreadSafeNucleiEngine := ⟨sampleBaseEngine⟩

/-- A concrete environment whose store resolves no templates and no
workflows. -/
def emptyStoreEnv : ScanEnv :=
  { newLoaderResult := .ok 11, loaderNewResult := .ok 12, templates := [],
    workflows := [], scanErr := none }

/-- A concrete environment whose store resolves one template. -/
def oneTemplateEnv : ScanEnv :=
  { emptyStoreEnv with templates := ["tech-detect"] }

/-- A concrete environment whose store resolves one workflow and no
templates. -/
def oneWorkflowEnv : ScanEnv :=
  { emptyStoreEnv with workflows := ["wf-chain"] }

/-- A concrete configuration function that always fails. -/
def boomOption : NucleiSDKOptions :=
  fun _ => .error (.optionError "boom")

/-- A concrete `init` behaviour that always succeeds. -/
def plainInitFn : NucleiEngine → Except NucleiError NucleiEngine :=
  fun e => .ok e

/-- C1: `ExecuteNucleiWithOpts` clones the shared engine's base options by
value before applying option functions, so an invocation leaves the shared
engine state exactly as it found it, a second invocation run after (hence,
in the pure embedding, interleaved with) a first one behaves exactly as if
the first had never run, and the per-invocation options an invocation
observes are a function of the shared base options and its own option
functions only. -/
theorem execute_isolates_invocation_options (e : ThreadSafeNucleiEngine)
    (env1 env2 : ScanEnv) (c1 c2 : Nat) (t1 t2 : List String)
    (o1 o2 : List NucleiSDKOptions) :
    (e.ExecuteNucleiWithOpts env1 c1 t1 o1).sharedAfter = e.eng ∧
    ThreadSafeNucleiEngine.ExecuteNucleiWithOpts
        ⟨(e.ExecuteNucleiWithOpts env1 c1 t1 o1).sharedAfter⟩ env2 c2 t2 o2
      = e.ExecuteNucleiWithOpts env2 c2 t2 o2 ∧
    (e.ExecuteNucleiWithOpts env2 c2 t2 o2).invocationOpts
      = invocationOptions e.eng.opts o2 := by
  refine ⟨execute_sharedAfter e env1 c1 t1 o1, ?_,
    execute_invocationOpts e env2 c2 t2 o2⟩
  rw [execute_sharedAfter e env1 c1 t1 o1]

/-- C2: the ephemeral executor options carry a rate limiter that follows the
spec's selection precedence (minute quota, then second quota, else
unlimited) as a function of the invocation's options alone, and is a freshly
allocated instance, never the shared engine's limiter handle. -/
theorem createEphemeralObjects_rateLimiter_policy (base : NucleiEngine)
    (opts : Options) (ctr : Nat) :
    (createEphemeralObjects base opts ctr).1.1.executerOpts.rateLimiter
        = specRateLimiterPolicy opts.rateLimitMinute opts.rateLimit ∧
    ((createEphemeralObjects base opts ctr).1.1.executerOpts.rateLimiter).isFromBase
        = false := by
  by_cases hm : opts.rateLimitMinute > 0
  · simp [createEphemeralObjects, specRateLimiterPolicy, RLimiter.isFromBase, hm]
  · by_cases hs : opts.rateLimit > 0 <;>
      simp [createEphemeralObjects, specRateLimiterPolicy, RLimiter.isFromBase,
        hm, hs]

/-- C9: `createEphemeralObjects` is total and always returns a nil error, so
the error check on its result in `ExecuteNucleiWithOpts` can never fire. -/
theorem createEphemeralObjects_never_fails (base : NucleiEngine)
    (opts : Options) (ctr : Nat) :
    (createEphemeralObjects base opts ctr).1.2 = none := rfl

/-- C8 counterexample: a targets sequence holding only duplicates of one
target yields a provider count of 2, not 1 — the Input Provider preserves
duplicates rather than deduplicating. -/
theorem loadTargets_dedup_counterexample :
    (loadTargets ["dup", "dup"]).count = 2 ∧
    (loadTargets ["dup", "dup"]).count ≠ 1 := by
  constructor
  · rfl
  · decide

/-- C8 amended: the Input Provider preserves duplicates with exact-string
semantics, so after the target-loading loop the provider's count equals the
number of targets passed in, duplicates included. -/
theorem loadTargets_count_preserves_duplicates (targets : List String) :
    (loadTargets targets).count = targets.length :=
  count_loadTargets targets

/-- C3 counterexample: with an empty targets sequence but a store resolving
zero templates and zero workflows, the call returns
`ErrNoTemplatesAvailable`, not `ErrNoTargetsAvailable` — the template check
runs first. -/
theorem execute_emptyTargets_counterexample :
    (sampleFacade.ExecuteNucleiWithOpts emptyStoreEnv 0 [] []).ret
        = some NucleiError.ErrNoTemplatesAvailable ∧
    (sampleFacade.ExecuteNucleiWithOpts emptyStoreEnv 0 [] []).ret
        ≠ some NucleiError.ErrNoTargetsAvailable := by
  constructor
  · rfl
  · decide

/-- C3 amended: a call with an empty targets sequence (and option
application plus both loader constructions succeeding) returns
`ErrNoTargetsAvailable` provided the resolved template and workflow sets are
not both empty; when both are empty the call returns
`ErrNoTemplatesAvailable` instead, because the template check precedes the
target check. -/
theorem execute_emptyTargets_returns_noTargets (e : ThreadSafeNucleiEngine)
    (env : ScanEnv) (ctr : Nat) (opts : List NucleiSDKOptions)
    (te : NucleiEngine) (wl st : Nat)
    (h1 : applyOptions opts (newEngineWith e.eng.opts .threadSafe) = .ok te)
    (h2 : env.newLoaderResult = .ok wl)
    (h3 : env.loaderNewResult = .ok st)
    (h4 : ¬(env.templates.length = 0 ∧ env.workflows.length = 0)) :
    (e.ExecuteNucleiWithOpts env ctr [] opts).ret
      = some NucleiError.ErrNoTargetsAvailable := by
  have hc : (loadTargets ([] : List String)).count = 0 := rfl
  rw [execute_validation e env ctr [] opts te wl st h1 h2 h3, if_neg h4,
    if_pos hc]

/-- C3 amended, witness at a concrete input: one resolved template, empty
targets. -/
theorem execute_emptyTargets_returns_noTargets_witness :
    (sampleFacade.ExecuteNucleiWithOpts oneTemplateEnv 0 [] []).ret
      = some NucleiError.ErrNoTargetsAvailable :=
  execute_emptyTargets_returns_noTargets sampleFacade oneTemplateEnv 0 []
    (newEngineWith sampleFacade.eng.opts .threadSafe) 11 12 rfl rfl rfl
    (by decide)

/-- C4: with a non-empty targets sequence (and option application plus both
loader constructions succeeding), the call returns
`ErrNoTemplatesAvailable` exactly when the resolved template set and the
resolved workflow set are both empty. -/
theorem execute_noTemplates_iff_empty_store (e : ThreadSafeNucleiEngine)
    (env : ScanEnv) (ctr : Nat) (targets : List String)
    (opts : List NucleiSDKOptions) (te : NucleiEngine) (wl st : Nat)
    (h1 : applyOptions opts (newEngineWith e.eng.opts .threadSafe) = .ok te)
    (h2 : env.newLoaderResult = .ok wl)
    (h3 : env.loaderNewResult = .ok st)
    (h5 : targets ≠ []) :
    (e.ExecuteNucleiWithOpts env ctr targets opts).ret
        = some NucleiError.ErrNoTemplatesAvailable
      ↔ env.templates = [] ∧ env.workflows = [] := by
  rw [execute_validation e env ctr targets opts te wl st h1 h2 h3]
  by_cases h : env.templates.length = 0 ∧ env.workflows.length = 0
  · rw [if_pos h]
    simp only [List.length_eq_zero] at h
    simp [h]
  · rw [if_neg h]
    have hc : (loadTargets targets).count ≠ 0 := by
      rw [count_loadTargets]
      simpa using h5
    rw [if_neg hc]
    simp only [List.length_eq_zero] at h
    simp [h]

/-- C4 witness at a concrete input: one target, empty store, so the call
fails with `ErrNoTemplatesAvailable`. -/
theorem execute_noTemplates_iff_empty_store_witness :
    (sampleFacade.ExecuteNucleiWithOpts emptyStoreEnv 0 ["https://a.example"] []).ret
      = some NucleiError.ErrNoTemplatesAvailable :=
  (execute_noTemplates_iff_empty_store sampleFacade emptyStoreEnv 0
      ["https://a.example"] [] (newEngineWith sampleFacade.eng.opts .threadSafe)
      11 12 rfl rfl rfl (by decide)).mpr ⟨rfl, rfl⟩

/-- C5: when some option function fails, the first error is returned as is,
no collaborator is ever called (no loader is constructed, nothing is loaded
or scanned), the shared engine is untouched, and the same holds for the
facade constructor, which then fails before `init` regardless of what `init`
would do. -/
theorem execute_optionError_failFast (e : ThreadSafeNucleiEngine)
    (env : ScanEnv) (ctr : Nat) (targets : List String)
    (opts opts2 : List NucleiSDKOptions) (err err2 : NucleiError)
    (h1 : applyOptions opts (newEngineWith e.eng.opts .threadSafe) = .error err)
    (h2 : applyOptions opts2 (newEngineWith defaultOptions .threadSafe)
        = .error err2) :
    (e.ExecuteNucleiWithOpts env ctr targets opts).ret = some err ∧
    (e.ExecuteNucleiWithOpts env ctr targets opts).events = [] ∧
    (e.ExecuteNucleiWithOpts env ctr targets opts).sharedAfter = e.eng ∧
    ∀ initFn, NewThreadSafeNucleiEngine initFn opts2 = .error err2 := by
  refine ⟨?_, ?_, execute_sharedAfter e env ctr targets opts, ?_⟩
  · unfold ThreadSafeNucleiEngine.ExecuteNucleiWithOpts
    simp [h1]
  · unfold ThreadSafeNucleiEngine.ExecuteNucleiWithOpts
    simp [h1]
  · intro initFn
    unfold NewThreadSafeNucleiEngine
    simp [h2]

/-- C5 witness at a concrete input: a single failing option function aborts
both the invocation (with an empty collaborator trace) and the
constructor. -/
theorem execute_optionError_failFast_witness :
    (sampleFacade.ExecuteNucleiWithOpts oneTemplateEnv 0 ["https://a.example"]
        [boomOption]).ret = some (NucleiError.optionError "boom") ∧
    (sampleFacade.ExecuteNucleiWithOpts oneTemplateEnv 0 ["https://a.example"]
        [boomOption]).events = [] ∧
    NewThreadSafeNucleiEngine plainInitFn [boomOption]
      = .error (NucleiError.optionError "boom") := by
  have h := execute_optionError_failFast sampleFacade oneTemplateEnv 0
    ["https://a.example"] [boomOption] [boomOption]
    (NucleiError.optionError "boom") (NucleiError.optionError "boom") rfl rfl
  exact ⟨h.1, h.2.1, h.2.2.2 plainInitFn⟩

/-- C6: once every setup step succeeds (options applied, loaders built,
store and targets both non-empty), the call returns nil whatever error value
the executor's scan operation produces — that value is discarded, never
propagated. -/
theorem execute_scanError_not_propagated (e : ThreadSafeNucleiEngine)
    (env : ScanEnv) (ctr : Nat) (targets : List String)
    (opts : List NucleiSDKOptions) (te : NucleiEngine) (wl st : Nat)
    (h1 : applyOptions opts (newEngineWith e.eng.opts .threadSafe) = .ok te)
    (h2 : env.newLoaderResult = .ok wl)
    (h3 : env.loaderNewResult = .ok st)
    (h4 : ¬(env.templates.length = 0 ∧ env.workflows.length = 0))
    (h5 : targets ≠ []) :
    ∀ scanE : Option String,
      (e.ExecuteNucleiWithOpts { env with scanErr := scanE } ctr targets
          opts).ret = none := by
  intro scanE
  have hc : (loadTargets targets).count ≠ 0 := by
    rw [count_loadTargets]
    simpa using h5
  rw [execute_validation e { env with scanErr := scanE } ctr targets opts te
    wl st h1 h2 h3, if_neg h4, if_neg hc]

/-- C6 witness at a concrete input: a failing scan still yields a nil
return. -/
theorem execute_scanError_not_propagated_witness :
    (sampleFacade.ExecuteNucleiWithOpts
        { oneTemplateEnv with scanErr := some "connection reset" } 0
        ["https://a.example"] []).ret = none :=
  execute_scanError_not_propagated sampleFacade oneTemplateEnv 0
    ["https://a.example"] [] (newEngineWith sampleFacade.eng.opts .threadSafe)
    11 12 rfl rfl rfl (by decide) (by decide) (some "connection reset")

/-- C7: an invocation that starts the executor ends its collaborator trace
with the scan call followed immediately by the wait on the work pool of the
very engine instance that ran the scan — an engine freshly allocated by this
invocation (its id lies in the block `ctr..ctrAfter` of ids this invocation
allocated, so no other invocation's pool is waited on) — and nothing happens
after that wait. -/
theorem execute_waits_own_workpool (e : ThreadSafeNucleiEngine)
    (env : ScanEnv) (ctr : Nat) (targets : List String)
    (opts : List NucleiSDKOptions) (te : NucleiEngine) (wl st : Nat)
    (h1 : applyOptions opts (newEngineWith e.eng.opts .threadSafe) = .ok te)
    (h2 : env.newLoaderResult = .ok wl)
    (h3 : env.loaderNewResult = .ok st)
    (h4 : ¬(env.templates.length = 0 ∧ env.workflows.length = 0))
    (h5 : targets ≠ []) :
    (e.ExecuteNucleiWithOpts env ctr targets opts).events
        = setupEvents te.opts ++
          [.coreNewEngine (ctr + 1) te.opts,
           .executeScanWithOpts (ctr + 1) env.templates false env.scanErr,
           .waitWorkPool (ctr + 1)] ∧
    (ctr ≤ ctr + 1 ∧
      ctr + 1 < (e.ExecuteNucleiWithOpts env ctr targets opts).ctrAfter) ∧
    (e.ExecuteNucleiWithOpts env ctr targets opts).ctrAfter = ctr + 2 := by
  have hc : (loadTargets targets).count ≠ 0 := by
    rw [count_loadTargets]
    simpa using h5
  rw [execute_validation e env ctr targets opts te wl st h1 h2 h3, if_neg h4,
    if_neg hc]
  exact ⟨rfl, ⟨Nat.le_succ ctr, Nat.lt_succ_self (ctr + 1)⟩, rfl⟩

/-- C7 witness at a concrete input. -/
theorem execute_waits_own_workpool_witness :
    (sampleFacade.ExecuteNucleiWithOpts oneTemplateEnv 0 ["https://a.example"]
        []).events
      = setupEvents defaultOptions ++
        [.coreNewEngine 1 defaultOptions,
         .executeScanWithOpts 1 ["tech-detect"] false none,
         .waitWorkPool 1] :=
  (execute_waits_own_workpool sampleFacade oneTemplateEnv 0
    ["https://a.example"] [] (newEngineWith sampleFacade.eng.opts .threadSafe)
    11 12 rfl rfl rfl (by decide) (by decide)).1

/-- C10: the executor's scan operation receives exactly the resolved
templates with the dedupe flag fixed to false (the resolved workflows are
consulted only by the emptiness check and never handed to the executor), and
the invocation completes with a nil return; in particular an invocation
resolving zero templates but at least one workflow passes validation and
submits an empty template list. -/
theorem execute_scan_receives_templates_only (e : ThreadSafeNucleiEngine)
    (env : ScanEnv) (ctr : Nat) (targets : List String)
    (opts : List NucleiSDKOptions) (te : NucleiEngine) (wl st : Nat)
    (h1 : applyOptions opts (newEngineWith e.eng.opts .threadSafe) = .ok te)
    (h2 : env.newLoaderResult = .ok wl)
    (h3 : env.loaderNewResult = .ok st)
    (h4 : ¬(env.templates.length = 0 ∧ env.workflows.length = 0))
    (h5 : targets ≠ []) :
    scannedCall (e.ExecuteNucleiWithOpts env ctr targets opts)
        = some (env.templates, false) ∧
    (e.ExecuteNucleiWithOpts env ctr targets opts).ret = none := by
  have hc : (loadTargets targets).count ≠ 0 := by
    rw [count_loadTargets]
    simpa using h5
  rw [execute_validation e env ctr targets opts te wl st h1 h2 h3, if_neg h4,
    if_neg hc]
  exact ⟨rfl, rfl⟩

/-- C10 witness at a concrete input: zero templates and one workflow pass
validation, the call returns nil, and the executor receives the empty
template list with dedupe false. -/
theorem execute_scan_receives_templates_only_witness :
    scannedCall (sampleFacade.ExecuteNucleiWithOpts oneWorkflowEnv 0
        ["https://a.example"] []) = some ([], false) ∧
    (sampleFacade.ExecuteNucleiWithOpts oneWorkflowEnv 0
        ["https://a.example"] []).ret = none :=
  execute_scan_receives_templates_only sampleFacade oneWorkflowEnv 0
    ["https://a.example"] [] (newEngineWith sampleFacade.eng.opts .threadSafe)
    11 12 rfl rfl rfl (by decide) (by decide)
